import Mathlib

/-!
Shallow embedding of `supervision/assets/downloader.py`: the checksum helper
`is_md5_hash_matching` and the asset resolver `download_assets`, together with
proofs of the specified properties (fetch-verify-repair protocol).
-/

set_option autoImplicit false

namespace Supervision

/-- Filesystem model: an association list from path strings to file contents
(byte lists); `none` lookup means the file does not exist. -/
abbrev FS := List (String × List Nat)

/-- `Path(filename).exists()` / reading a file: first binding for the path. -/
def fsLookup (fs : FS) (k : String) : Option (List Nat) :=
  List.lookup k fs

/-- `os.remove(filename)`: drop every binding for the path. -/
def fsErase (fs : FS) (k : String) : FS :=
  List.filter (fun p => p.1 != k) fs

/-- `open(path, "wb")` + `copyfileobj`: (over)write the file at the path. -/
def fsInsert (fs : FS) (k : String) (v : List Nat) : FS :=
  (k, v) :: fsErase fs k

/-- Environment of `download_assets`. Modelled from the spec: the Registry
(`supervision.assets.list`, not under src/) is an immutable mapping
`identifier -> (source URL, expected checksum)`, held here as `assets`.
`net` is the transfer collaborator: bytes fetched from a URL, `none` meaning a
non-success status that `raise_for_status` turns into an exception. `md5` is
the fixed digest algorithm, a function from contents to a hex string. -/
structure Env where
  assets : List (String × String × String)
  net : String → Option (List Nat)
  md5 : List Nat → String

/-- `filename in ASSETS` / `ASSETS[filename]`: registry lookup. -/
def ASSETS_lookup (env : Env) (k : String) : Option (String × String) :=
  List.lookup k env.assets

/-- Filesystem reads performed by `is_md5_hash_matching`. -/
inductive ReadEff : Type where
  | existsCheck (path : String)
  | readFile (path : String)
  deriving Repr, DecidableEq

/-- Embedding of `is_md5_hash_matching(filename, original_md5_hash)`: if the
file does not exist return `False`; otherwise read the file, hash its contents
and compare to the expected hex digest. The second component records which
filesystem reads the call performs. -/
def is_md5_hash_matching (env : Env) (fs : FS) (filename : String)
    (original_md5_hash : String) : Bool × List ReadEff :=
  match fsLookup fs filename with
  | none => (false, [ReadEff.existsCheck filename])
  | some file_contents =>
      (env.md5 file_contents == original_md5_hash,
        [ReadEff.existsCheck filename, ReadEff.readFile filename])

/-- Observable effects of `download_assets`: network transfer, parent-directory
creation, file write, file deletion, diagnostic output, and a checksum check
(the call to `is_md5_hash_matching`). -/
inductive Eff : Type where
  | netGet (url : String)
  | mkdirParents (path : String)
  | write (path : String)
  | remove (path : String)
  | print (msg : String)
  | checkHash (path : String)
  deriving Repr, DecidableEq

/-- Failures of `download_assets`: the `ValueError` for an unknown asset, the
`KeyError` raised by `ASSETS[filename]` when the key is absent, and the
exception raised by `response.raise_for_status()`. -/
inductive Err : Type where
  | valueError (msg : String)
  | keyError (key : String)
  | httpError
  deriving Repr, DecidableEq

/-- Input of `download_assets`: either a typed asset enum value or a raw
string. Modelled from the spec: the enum members (`VideoAssets` /
`ImageAssets` in `supervision.assets.list`, not under src/) each carry a
`filename` string. -/
structure Assets where
  filename : String
  deriving Repr, DecidableEq

/-- `Union[VideoAssets, ImageAssets, str]` argument. -/
inductive AssetName : Type where
  | enum (a : Assets)
  | str (s : String)

/-- Deleting an existing file strictly shrinks the filesystem, which bounds
the repair recursion. -/
theorem fsErase_length_lt (fs : FS) (k : String) (v : List Nat)
    (h : fsLookup fs k = some v) : (fsErase fs k).length < fs.length := by
  induction fs with
  | nil => simp [fsLookup, List.lookup] at h
  | cons p rest ih =>
      simp only [fsLookup, List.lookup] at h
      by_cases hk : k = p.1
      · simp only [fsErase, List.filter]
        have hne : (p.1 != k) = false := by simp [bne, hk]
        rw [hne]
        exact Nat.lt_succ_of_le (List.length_filter_le _ _)
      · have hbeq : (k == p.1) = false := by simp [hk]
        rw [hbeq] at h
        have hlt := ih h
        simp only [fsErase, List.filter] at hlt ⊢
        have hne : (p.1 != k) = true := by
          simp only [bne, Bool.not_eq_true']
          simp only [beq_eq_false_iff_ne, ne_eq]
          exact fun e => hk e.symm
        rw [hne]
        simpa using Nat.succ_lt_succ hlt

/-- The body of `download_assets` after the `filename` extraction, which is
where the recursive repair call re-enters (`download_assets(filename)` with a
string). Returns the filename, the final filesystem, and the ordered effect
trace on success, or the raised error. Control flow mirrors the source:
`if not exists and registered` → download; `elif exists` → checksum check with
repair recursion; `else` → `ValueError` listing the valid identifiers. -/
def download_assets_go (env : Env) (filename : String) (fs : FS) :
    Except Err (String × FS × List Eff) :=
  match hfs : fsLookup fs filename with
  | none =>
      match ASSETS_lookup env filename with
      | some (url, _) =>
          match env.net url with
          | none => Except.error Err.httpError
          | some bytes =>
              Except.ok (filename, fsInsert fs filename bytes,
                [Eff.print ("Downloading " ++ filename ++ " assets \n"),
                 Eff.netGet url, Eff.mkdirParents filename,
                 Eff.write filename])
      | none =>
          Except.error (Err.valueError
            ("Invalid asset. It should be one of the following: "
              ++ String.intercalate ", " (env.assets.map Prod.fst) ++ "."))
  | some _ =>
      match ASSETS_lookup env filename with
      | none => Except.error (Err.keyError filename)
      | some (_, expected_hash) =>
          if (is_md5_hash_matching env fs filename expected_hash).1 then
            Except.ok (filename, fs,
              [Eff.checkHash filename,
               Eff.print (filename ++ " asset download complete. \n")])
          else
            match download_assets_go env filename (fsErase fs filename) with
            | Except.ok (f, fs2, effs) =>
                Except.ok (f, fs2,
                  [Eff.checkHash filename,
                   Eff.print "File corrupted. Re-downloading... \n",
                   Eff.remove filename] ++ effs)
            | Except.error e => Except.error e
  termination_by fs.length
  decreasing_by
    exact fsErase_length_lt fs filename _ hfs

/-- Embedding of `download_assets(asset_name)`: extract the filename from an
enum value or use the string directly, then run the resolver body. -/
def download_assets (env : Env) (asset_name : AssetName) (fs : FS) :
    Except Err (String × FS × List Eff) :=
  let filename := match asset_name with
    | AssetName.enum a => a.filename
    | AssetName.str s => s
  download_assets_go env filename fs

/-! Basic filesystem lemmas. -/

/-- After deleting a file, it no longer exists. -/
theorem fsLookup_fsErase_self (fs : FS) (k : String) :
    fsLookup (fsErase fs k) k = none := by
  induction fs with
  | nil => rfl
  | cons p rest ih =>
      simp only [fsErase, List.filter] at ih ⊢
      by_cases hk : p.1 = k
      · have : (p.1 != k) = false := by simp [bne, hk]
        rw [this]; exact ih
      · have : (p.1 != k) = true := by simp [bne, hk]
        rw [this]
        simp only [fsLookup, List.lookup]
        have : (k == p.1) = false := by simp; exact fun e => hk e.symm
        rw [this]
        exact ih

/-- After writing a file, it exists with exactly the written contents. -/
theorem fsLookup_fsInsert_self (fs : FS) (k : String) (v : List Nat) :
    fsLookup (fsInsert fs k v) k = some v := by
  simp [fsLookup, fsInsert, List.lookup]

/-! Branch characterizations of `download_assets_go`, one per row of the
resolver state machine over (exists_locally, is_registered, checksum_matches). -/

/-- Row (absent, registered): download from the registered URL and write the
received bytes, or propagate the transfer failure. -/
theorem go_absent_registered (env : Env) (f : String) (fs : FS)
    (u hsh : String) (h1 : fsLookup fs f = none)
    (h2 : ASSETS_lookup env f = some (u, hsh)) :
    download_assets_go env f fs =
      match env.net u with
      | none => Except.error Err.httpError
      | some bytes =>
          Except.ok (f, fsInsert fs f bytes,
            [Eff.print ("Downloading " ++ f ++ " assets \n"),
             Eff.netGet u, Eff.mkdirParents f, Eff.write f]) := by
  rw [download_assets_go]
  split <;> simp_all [h2]

/-- Row (absent, unregistered): `ValueError` listing the valid identifiers. -/
theorem go_absent_unregistered (env : Env) (f : String) (fs : FS)
    (h1 : fsLookup fs f = none) (h2 : ASSETS_lookup env f = none) :
    download_assets_go env f fs =
      Except.error (Err.valueError
        ("Invalid asset. It should be one of the following: "
          ++ String.intercalate ", " (env.assets.map Prod.fst) ++ ".")) := by
  rw [download_assets_go]
  split <;> simp_all [h2]

/-- Row (present, unregistered): `ASSETS[filename]` raises `KeyError`. -/
theorem go_present_unregistered (env : Env) (f : String) (fs : FS)
    (bytes : List Nat) (h1 : fsLookup fs f = some bytes)
    (h2 : ASSETS_lookup env f = none) :
    download_assets_go env f fs = Except.error (Err.keyError f) := by
  rw [download_assets_go]
  split <;> simp_all [h2]

/-- Row (present, registered, checksum matches): accept the cached file,
touching neither the filesystem nor the network. -/
theorem go_present_match (env : Env) (f : String) (fs : FS)
    (bytes : List Nat) (u hsh : String) (h1 : fsLookup fs f = some bytes)
    (h2 : ASSETS_lookup env f = some (u, hsh))
    (h3 : (env.md5 bytes == hsh) = true) :
    download_assets_go env f fs =
      Except.ok (f, fs,
        [Eff.checkHash f,
         Eff.print (f ++ " asset download complete. \n")]) := by
  rw [download_assets_go]
  split <;> simp_all [h2, is_md5_hash_matching]

/-- Row (present, registered, checksum mismatch): delete the file and recurse
once; the recursive call finds the file absent and downloads, with no further
verification of the re-downloaded bytes. -/
theorem go_present_mismatch (env : Env) (f : String) (fs : FS)
    (bytes : List Nat) (u hsh : String) (h1 : fsLookup fs f = some bytes)
    (h2 : ASSETS_lookup env f = some (u, hsh))
    (h3 : (env.md5 bytes == hsh) = false) :
    download_assets_go env f fs =
      match env.net u with
      | none => Except.error Err.httpError
      | some nb =>
          Except.ok (f, fsInsert (fsErase fs f) f nb,
            [Eff.checkHash f,
             Eff.print "File corrupted. Re-downloading... \n",
             Eff.remove f,
             Eff.print ("Downloading " ++ f ++ " assets \n"),
             Eff.netGet u, Eff.mkdirParents f, Eff.write f]) := by
  rw [download_assets_go]
  split
  · next hfs => rw [h1] at hfs; exact Option.noConfusion hfs
  · next val hfs =>
      rw [h1] at hfs
      injection hfs with hv
      subst hv
      simp only [h2, is_md5_hash_matching, h1, h3]
      rw [go_absent_registered env f (fsErase fs f) u hsh
        (fsLookup_fsErase_self fs f) h2]
      cases env.net u <;> simp

/-! Recursion-depth instrumentation: the same body with an explicit fuel
counter, `none` meaning the recursion budget was exhausted. Fuel 2 allows the
top-level pass plus one repair recursion. -/

/-- Fuel-indexed variant of `download_assets_go`: identical branch structure,
but the repair recursion consumes one unit of fuel. -/
def download_assets_fuel : Nat → Env → String → FS →
    Option (Except Err (String × FS × List Eff))
  | 0, _, _, _ => none
  | fuel + 1, env, filename, fs =>
      match fsLookup fs filename with
      | none =>
          match ASSETS_lookup env filename with
          | some (url, _) =>
              match env.net url with
              | none => some (Except.error Err.httpError)
              | some bytes =>
                  some (Except.ok (filename, fsInsert fs filename bytes,
                    [Eff.print ("Downloading " ++ filename ++ " assets \n"),
                     Eff.netGet url, Eff.mkdirParents filename,
                     Eff.write filename]))
          | none =>
              some (Except.error (Err.valueError
                ("Invalid asset. It should be one of the following: "
                  ++ String.intercalate ", " (env.assets.map Prod.fst) ++ ".")))
      | some _ =>
          match ASSETS_lookup env filename with
          | none => some (Except.error (Err.keyError filename))
          | some (_, expected_hash) =>
              if (is_md5_hash_matching env fs filename expected_hash).1 then
                some (Except.ok (filename, fs,
                  [Eff.checkHash filename,
                   Eff.print (filename ++ " asset download complete. \n")]))
              else
                match download_assets_fuel fuel env filename
                    (fsErase fs filename) with
                | some (Except.ok (f, fs2, effs)) =>
                    some (Except.ok (f, fs2,
                      [Eff.checkHash filename,
                       Eff.print "File corrupted. Re-downloading... \n",
                       Eff.remove filename] ++ effs))
                | some (Except.error e) => some (Except.error e)
                | none => none

/-! Effect counting. -/

/-- Recognize a network transfer in the effect trace. -/
def isNetGet : Eff → Bool
  | Eff.netGet _ => true
  | _ => false

/-- Recognize a file write in the effect trace. -/
def isWriteEff : Eff → Bool
  | Eff.write _ => true
  | _ => false

/-- Recognize a file deletion in the effect trace. -/
def isRemoveEff : Eff → Bool
  | Eff.remove _ => true
  | _ => false

/-- Recognize a checksum check in the effect trace. -/
def isCheckHash : Eff → Bool
  | Eff.checkHash _ => true
  | _ => false

/-- Count the effects satisfying a predicate. -/
def countEff (p : Eff → Bool) (effs : List Eff) : Nat :=
  (effs.filter p).length

/-- Per-call work bound of the resolver: a successful trace holds at most one
checksum check, at most one deletion, and at most one download. -/
def repairWorkBounded (r : Except Err (String × FS × List Eff)) : Bool :=
  match r with
  | Except.error _ => true
  | Except.ok (_, _, effs) =>
      decide (countEff isCheckHash effs ≤ 1)
        && decide (countEff isRemoveEff effs ≤ 1)
        && decide (countEff isNetGet effs ≤ 1)

/-- Fuel 2 (one repair recursion) always suffices: the instrumented resolver
never exhausts its budget and agrees with the recursive one. -/
theorem download_assets_fuel_two (env : Env) (f : String) (fs : FS) :
    download_assets_fuel 2 env f fs = some (download_assets_go env f fs) := by
  cases hfs : fsLookup fs f with
  | none =>
      cases hreg : ASSETS_lookup env f with
      | none =>
          rw [go_absent_unregistered env f fs hfs hreg]
          simp [download_assets_fuel, hfs, hreg]
      | some p =>
          obtain ⟨u, hsh⟩ := p
          rw [go_absent_registered env f fs u hsh hfs hreg]
          simp only [download_assets_fuel, hfs, hreg]
          cases env.net u <;> simp
  | some bytes =>
      cases hreg : ASSETS_lookup env f with
      | none =>
          rw [go_present_unregistered env f fs bytes hfs hreg]
          simp [download_assets_fuel, hfs, hreg]
      | some p =>
          obtain ⟨u, hsh⟩ := p
          cases hmd : env.md5 bytes == hsh with
          | true =>
              rw [go_present_match env f fs bytes u hsh hfs hreg hmd]
              simp [download_assets_fuel, hfs, hreg, is_md5_hash_matching, hmd]
          | false =>
              rw [go_present_mismatch env f fs bytes u hsh hfs hreg hmd]
              simp only [download_assets_fuel, hfs, hreg,
                is_md5_hash_matching, hmd, fsLookup_fsErase_self]
              cases env.net u <;> simp

/-- Every branch of the resolver obeys the per-call work bound. -/
theorem repairWorkBounded_go (env : Env) (f : String) (fs : FS) :
    repairWorkBounded (download_assets_go env f fs) = true := by
  cases hfs : fsLookup fs f with
  | none =>
      cases hreg : ASSETS_lookup env f with
      | none =>
          rw [go_absent_unregistered env f fs hfs hreg]; rfl
      | some p =>
          obtain ⟨u, hsh⟩ := p
          rw [go_absent_registered env f fs u hsh hfs hreg]
          cases env.net u <;> rfl
  | some bytes =>
      cases hreg : ASSETS_lookup env f with
      | none =>
          rw [go_present_unregistered env f fs bytes hfs hreg]; rfl
      | some p =>
          obtain ⟨u, hsh⟩ := p
          cases hmd : env.md5 bytes == hsh with
          | true =>
              rw [go_present_match env f fs bytes u hsh hfs hreg hmd]; rfl
          | false =>
              rw [go_present_mismatch env f fs bytes u hsh hfs hreg hmd]
              cases env.net u <;> rfl

/-! Claim-level predicates and concrete test environments. -/

/-- The spec's post-condition for a resolver result: on success, the file at
the identifier's path exists and its digest equals the Registry's expected
checksum for that identifier. -/
def resolvePostcondition (env : Env) (f : String)
    (r : Except Err (String × FS × List Eff)) : Bool :=
  match r with
  | Except.error _ => true
  | Except.ok (_, fs2, _) =>
      match fsLookup fs2 f, ASSETS_lookup env f with
      | some cur, some (_, hsh) => env.md5 cur == hsh
      | _, _ => false

/-- Whether a resolver result is the `UnknownAsset` failure, i.e. the
`ValueError` carrying the valid-identifier listing. -/
def isUnknownAssetFailure (r : Except Err (String × FS × List Eff)) : Bool :=
  match r with
  | Except.error (Err.valueError _) => true
  | _ => false

/-- Registry with one asset `"a"` whose transfer always delivers bytes `[1]`
hashing (under this environment's digest) to `"x"`, never the registered
checksum `"h"`: a systematically corrupting transport. -/
def envC1 : Env where
  assets := [("a", "u", "h")]
  net := fun s => if s == "u" then some [1] else none
  md5 := fun _ => "x"

/-- Registry with one asset `"a.mp4"`; the probe identifier `"b.txt"` is not
registered. -/
def envC2 : Env where
  assets := [("a.mp4", "u", "h")]
  net := fun _ => none
  md5 := fun _ => "x"

/-- Registry with one asset `"a"` whose transfer delivers bytes `[1]`, which
hash to the registered checksum `"h"`: a faithful transport. -/
def envGood : Env where
  assets := [("a", "u", "h")]
  net := fun s => if s == "u" then some [1] else none
  md5 := fun b => if b == [1] then "h" else "x"

/-! Claims. -/

/-- C1 (counterexample): the claimed unconditional post-condition is false.
With a transport that delivers bytes hashing to `"x"` while the Registry
expects `"h"`, the cold-download branch returns successfully yet the file's
checksum differs from the registered one, because no post-download
verification is performed. -/
theorem C1_counterexample :
    (download_assets_go envC1 "a" []).isOk = true ∧
    resolvePostcondition envC1 "a" (download_assets_go envC1 "a" []) = false := by
  rw [go_absent_registered envC1 "a" [] "u" "h" rfl (by decide)]
  exact ⟨by decide, by decide⟩

/-- C1 (amended): if the transfer for the identifier's registered URL delivers
bytes whose digest equals the registered checksum, then whenever
`download_assets` returns successfully — cold download, cache hit, or
corruption repair — the file at the identifier's path exists and its checksum
equals the Registry's expected checksum. -/
theorem C1_success_checksum (env : Env) (f : String) (fs : FS) (g : String)
    (fs2 : FS) (effs : List Eff) (u hsh : String) (bytes : List Nat)
    (hreg : ASSETS_lookup env f = some (u, hsh))
    (hnet : env.net u = some bytes)
    (hmd : env.md5 bytes = hsh)
    (hok : download_assets_go env f fs = Except.ok (g, fs2, effs)) :
    g = f ∧ ∃ cur, fsLookup fs2 f = some cur ∧ env.md5 cur = hsh := by
  cases hfs : fsLookup fs f with
  | none =>
      rw [go_absent_registered env f fs u hsh hfs hreg] at hok
      simp only [hnet, Except.ok.injEq, Prod.mk.injEq] at hok
      obtain ⟨hg, hfs2, -⟩ := hok
      subst hg; subst hfs2
      exact ⟨rfl, bytes, fsLookup_fsInsert_self fs f bytes, hmd⟩
  | some cur =>
      cases hmd2 : env.md5 cur == hsh with
      | true =>
          rw [go_present_match env f fs cur u hsh hfs hreg hmd2] at hok
          simp only [Except.ok.injEq, Prod.mk.injEq] at hok
          obtain ⟨hg, hfs2, -⟩ := hok
          subst hg; subst hfs2
          exact ⟨rfl, cur, hfs, by simpa using hmd2⟩
      | false =>
          rw [go_present_mismatch env f fs cur u hsh hfs hreg hmd2] at hok
          simp only [hnet, Except.ok.injEq, Prod.mk.injEq] at hok
          obtain ⟨hg, hfs2, -⟩ := hok
          subst hg; subst hfs2
          exact ⟨rfl, bytes,
            fsLookup_fsInsert_self (fsErase fs f) f bytes, hmd⟩

/-- C1 (witness): the amended theorem applied to the faithful-transport
environment on a cold identifier. -/
theorem C1_success_checksum_witness :
    (ASSETS_lookup envGood "a" = some ("u", "h") ∧
     envGood.net "u" = some [1] ∧ envGood.md5 [1] = "h" ∧
     download_assets_go envGood "a" [] =
       Except.ok ("a", [("a", [1])],
         [Eff.print "Downloading a assets \n", Eff.netGet "u",
          Eff.mkdirParents "a", Eff.write "a"])) ∧
    ("a" = "a" ∧ ∃ cur, fsLookup [("a", [1])] "a" = some cur ∧
      envGood.md5 cur = "h") := by
  have hok : download_assets_go envGood "a" [] =
      Except.ok ("a", [("a", [1])],
        [Eff.print "Downloading a assets \n", Eff.netGet "u",
         Eff.mkdirParents "a", Eff.write "a"]) := by
    rw [go_absent_registered envGood "a" [] "u" "h" rfl (by decide)]
    rfl
  exact ⟨⟨by decide, by decide, by decide, hok⟩,
    C1_success_checksum envGood "a" [] "a" [("a", [1])] _ "u" "h" [1]
      (by decide) (by decide) (by decide) hok⟩

/-- C2 (counterexample): for an existing file whose name is not a registered
identifier, `download_assets` raises the `KeyError` from `ASSETS[filename]`,
not the `UnknownAsset` `ValueError` listing the valid identifiers. -/
theorem C2_counterexample :
    download_assets_go envC2 "b.txt" [("b.txt", [0])] =
      Except.error (Err.keyError "b.txt") ∧
    isUnknownAssetFailure
      (download_assets_go envC2 "b.txt" [("b.txt", [0])]) = false := by
  rw [go_present_unregistered envC2 "b.txt" [("b.txt", [0])] [0]
    (by decide) (by decide)]
  exact ⟨rfl, rfl⟩

/-- C2 (amended): for an identifier not in the Registry whose local file
exists, `download_assets` fails — but with the `KeyError` raised by the
registry subscript in the checksum branch, not with the `UnknownAsset`
`ValueError`; the failure therefore differs from the unknown-identifier,
no-local-file case. -/
theorem C2_present_unregistered_keyError (env : Env) (f : String) (fs : FS)
    (bytes : List Nat) (h1 : fsLookup fs f = some bytes)
    (h2 : ASSETS_lookup env f = none) :
    download_assets_go env f fs = Except.error (Err.keyError f) ∧
    isUnknownAssetFailure (download_assets_go env f fs) = false := by
  rw [go_present_unregistered env f fs bytes h1 h2]
  exact ⟨rfl, rfl⟩

/-- C2 (witness): the amended theorem applied to an unregistered name with an
existing local file. -/
theorem C2_present_unregistered_keyError_witness :
    (fsLookup [("b.txt", [0])] "b.txt" = some [0] ∧
     ASSETS_lookup envC2 "b.txt" = none) ∧
    (download_assets_go envC2 "b.txt" [("b.txt", [0])] =
       Except.error (Err.keyError "b.txt") ∧
     isUnknownAssetFailure
       (download_assets_go envC2 "b.txt" [("b.txt", [0])]) = false) :=
  ⟨⟨by decide, by decide⟩,
    C2_present_unregistered_keyError envC2 "b.txt" [("b.txt", [0])] [0]
      (by decide) (by decide)⟩

/-- C3 (counterexample): under the corrupting transport, the repair path
re-downloads bytes whose checksum still mismatches the registered one, and
`download_assets` nevertheless returns the path successfully instead of
failing. -/
theorem C3_counterexample :
    (envC1.md5 [1] == "h") = false ∧
    download_assets_go envC1 "a" [("a", [9])] =
      Except.ok ("a", [("a", [1])],
        [Eff.checkHash "a",
         Eff.print "File corrupted. Re-downloading... \n",
         Eff.remove "a",
         Eff.print "Downloading a assets \n", Eff.netGet "u",
         Eff.mkdirParents "a", Eff.write "a"]) := by
  refine ⟨by decide, ?_⟩
  rw [go_present_mismatch envC1 "a" [("a", [9])] [9] "u" "h"
    (by decide) (by decide) (by decide)]
  rfl

/-- C3 (amended): in the corruption-repair path, the recursive call performs
no verification of the re-downloaded file: whenever the re-download transfer
succeeds, `download_assets` returns the path with the fetched bytes on disk,
regardless of whether their checksum matches the registered one; it fails only
when the re-download transfer itself fails. -/
theorem C3_repair_unverified (env : Env) (f : String) (fs : FS)
    (bytes : List Nat) (u hsh : String) (nb : List Nat)
    (h1 : fsLookup fs f = some bytes)
    (h2 : ASSETS_lookup env f = some (u, hsh))
    (h3 : (env.md5 bytes == hsh) = false)
    (h4 : env.net u = some nb) :
    download_assets_go env f fs =
      Except.ok (f, fsInsert (fsErase fs f) f nb,
        [Eff.checkHash f,
         Eff.print "File corrupted. Re-downloading... \n",
         Eff.remove f,
         Eff.print ("Downloading " ++ f ++ " assets \n"), Eff.netGet u,
         Eff.mkdirParents f, Eff.write f]) ∧
    fsLookup (fsInsert (fsErase fs f) f nb) f = some nb := by
  constructor
  · rw [go_present_mismatch env f fs bytes u hsh h1 h2 h3, h4]
  · exact fsLookup_fsInsert_self (fsErase fs f) f nb

/-- C3 (witness): the amended theorem applied to a corrupt file under the
corrupting transport; note the re-downloaded bytes `[1]` also hash to `"x"`,
not `"h"`, yet the call succeeds. -/
theorem C3_repair_unverified_witness :
    (fsLookup [("a", [9])] "a" = some [9] ∧
     ASSETS_lookup envC1 "a" = some ("u", "h") ∧
     (envC1.md5 [9] == "h") = false ∧ envC1.net "u" = some [1]) ∧
    (download_assets_go envC1 "a" [("a", [9])] =
       Except.ok ("a", fsInsert (fsErase [("a", [9])] "a") "a" [1],
         [Eff.checkHash "a",
          Eff.print "File corrupted. Re-downloading... \n",
          Eff.remove "a",
          Eff.print ("Downloading " ++ "a" ++ " assets \n"), Eff.netGet "u",
          Eff.mkdirParents "a", Eff.write "a"]) ∧
     fsLookup (fsInsert (fsErase [("a", [9])] "a") "a" [1]) "a" = some [1]) :=
  ⟨⟨by decide, by decide, by decide, by decide⟩,
    C3_repair_unverified envC1 "a" [("a", [9])] [9] "u" "h" [1]
      (by decide) (by decide) (by decide) (by decide)⟩

/-- C4: the resolver terminates on every input with recursion depth at most
one — fuel 2 (top-level pass plus one repair recursion) always reproduces the
unbounded-recursion result — and every successful trace contains at most one
checksum check, at most one deletion, and at most one network transfer. -/
theorem C4_termination_depth_one (env : Env) (f : String) (fs : FS) :
    download_assets_fuel 2 env f fs = some (download_assets_go env f fs) ∧
    repairWorkBounded (download_assets_go env f fs) = true :=
  ⟨download_assets_fuel_two env f fs, repairWorkBounded_go env f fs⟩

/-- C5: for a registered identifier whose local file exists with a matching
checksum, the resolver returns the existing path with the filesystem
unchanged, and its trace contains no network transfer, no write, and no
deletion. -/
theorem C5_cache_hit_no_effects (env : Env) (f : String) (fs : FS)
    (bytes : List Nat) (u hsh : String)
    (h1 : fsLookup fs f = some bytes)
    (h2 : ASSETS_lookup env f = some (u, hsh))
    (h3 : env.md5 bytes = hsh) :
    download_assets_go env f fs =
      Except.ok (f, fs,
        [Eff.checkHash f,
         Eff.print (f ++ " asset download complete. \n")]) ∧
    countEff isNetGet
      [Eff.checkHash f, Eff.print (f ++ " asset download complete. \n")] = 0 ∧
    countEff isWriteEff
      [Eff.checkHash f, Eff.print (f ++ " asset download complete. \n")] = 0 ∧
    countEff isRemoveEff
      [Eff.checkHash f, Eff.print (f ++ " asset download complete. \n")] = 0 := by
  refine ⟨go_present_match env f fs bytes u hsh h1 h2 (by simp [h3]), rfl, rfl, rfl⟩

/-- C5 (witness): the cache-hit theorem applied to a valid local file under
the faithful transport. -/
theorem C5_cache_hit_no_effects_witness :
    (fsLookup [("a", [1])] "a" = some [1] ∧
     ASSETS_lookup envGood "a" = some ("u", "h") ∧ envGood.md5 [1] = "h") ∧
    (download_assets_go envGood "a" [("a", [1])] =
       Except.ok ("a", [("a", [1])],
         [Eff.checkHash "a",
          Eff.print ("a" ++ " asset download complete. \n")]) ∧
     countEff isNetGet
       [Eff.checkHash "a",
        Eff.print ("a" ++ " asset download complete. \n")] = 0 ∧
     countEff isWriteEff
       [Eff.checkHash "a",
        Eff.print ("a" ++ " asset download complete. \n")] = 0 ∧
     countEff isRemoveEff
       [Eff.checkHash "a",
        Eff.print ("a" ++ " asset download complete. \n")] = 0) :=
  ⟨⟨by decide, by decide, by decide⟩,
    C5_cache_hit_no_effects envGood "a" [("a", [1])] [1] "u" "h"
      (by decide) (by decide) (by decide)⟩

/-- C6: for an identifier not in the Registry with no local file,
`download_assets` raises the `ValueError` whose message lists every identifier
of the Registry, comma-joined in registry order. -/
theorem C6_unknown_asset_message (env : Env) (f : String) (fs : FS)
    (h1 : fsLookup fs f = none) (h2 : ASSETS_lookup env f = none) :
    download_assets_go env f fs =
      Except.error (Err.valueError
        ("Invalid asset. It should be one of the following: "
          ++ String.intercalate ", " (env.assets.map Prod.fst) ++ ".")) ∧
    isUnknownAssetFailure (download_assets_go env f fs) = true := by
  rw [go_absent_unregistered env f fs h1 h2]
  exact ⟨rfl, rfl⟩

/-- C6 (witness): an unknown identifier against the one-asset registry yields
the `ValueError` naming that asset. -/
theorem C6_unknown_asset_message_witness :
    (fsLookup [] "nonexistent.ext" = none ∧
     ASSETS_lookup envC2 "nonexistent.ext" = none) ∧
    (download_assets_go envC2 "nonexistent.ext" [] =
       Except.error (Err.valueError
         ("Invalid asset. It should be one of the following: "
           ++ String.intercalate ", " (envC2.assets.map Prod.fst) ++ ".")) ∧
     isUnknownAssetFailure (download_assets_go envC2 "nonexistent.ext" []) =
       true) :=
  ⟨⟨by decide, by decide⟩,
    C6_unknown_asset_message envC2 "nonexistent.ext" []
      (by decide) (by decide)⟩

/-- C7 (counterexample): under the corrupting transport, two successive calls
on a cold identifier do return the same path and leave the same file content,
but the second call is not transfer-free: it re-downloads (one network
transfer), because the first download's bytes fail the checksum. -/
theorem C7_counterexample :
    download_assets_go envC1 "a" [] =
      Except.ok ("a", [("a", [1])],
        [Eff.print "Downloading a assets \n", Eff.netGet "u",
         Eff.mkdirParents "a", Eff.write "a"]) ∧
    download_assets_go envC1 "a" [("a", [1])] =
      Except.ok ("a", [("a", [1])],
        [Eff.checkHash "a",
         Eff.print "File corrupted. Re-downloading... \n",
         Eff.remove "a", Eff.print "Downloading a assets \n",
         Eff.netGet "u", Eff.mkdirParents "a", Eff.write "a"]) ∧
    countEff isNetGet
      [Eff.checkHash "a",
       Eff.print "File corrupted. Re-downloading... \n",
       Eff.remove "a", Eff.print "Downloading a assets \n",
       Eff.netGet "u", Eff.mkdirParents "a", Eff.write "a"] = 1 := by
  refine ⟨?_, ?_, by decide⟩
  · rw [go_absent_registered envC1 "a" [] "u" "h" rfl (by decide)]
    rfl
  · rw [go_present_mismatch envC1 "a" [("a", [1])] [1] "u" "h"
      (by decide) (by decide) (by decide)]
    rfl

/-- C7 (amended): if the transfer delivers bytes whose digest equals the
registered checksum, two successive calls on a cold identifier return the same
path and the same final filesystem, and the second call's trace contains zero
network transfers. -/
theorem C7_idempotent_cold (env : Env) (f : String) (fs : FS)
    (u hsh : String) (bytes : List Nat)
    (h1 : fsLookup fs f = none)
    (h2 : ASSETS_lookup env f = some (u, hsh))
    (h3 : env.net u = some bytes)
    (h4 : env.md5 bytes = hsh) :
    download_assets_go env f fs =
      Except.ok (f, fsInsert fs f bytes,
        [Eff.print ("Downloading " ++ f ++ " assets \n"), Eff.netGet u,
         Eff.mkdirParents f, Eff.write f]) ∧
    download_assets_go env f (fsInsert fs f bytes) =
      Except.ok (f, fsInsert fs f bytes,
        [Eff.checkHash f, Eff.print (f ++ " asset download complete. \n")]) ∧
    countEff isNetGet
      [Eff.checkHash f, Eff.print (f ++ " asset download complete. \n")] = 0 := by
  refine ⟨?_, ?_, rfl⟩
  · rw [go_absent_registered env f fs u hsh h1 h2, h3]
  · exact go_present_match env f (fsInsert fs f bytes) bytes u hsh
      (fsLookup_fsInsert_self fs f bytes) h2 (by simp [h4])

/-- C7 (witness): the amended theorem applied to the faithful transport on a
cold identifier. -/
theorem C7_idempotent_cold_witness :
    (fsLookup [] "a" = none ∧ ASSETS_lookup envGood "a" = some ("u", "h") ∧
     envGood.net "u" = some [1] ∧ envGood.md5 [1] = "h") ∧
    (download_assets_go envGood "a" [] =
       Except.ok ("a", fsInsert [] "a" [1],
         [Eff.print ("Downloading " ++ "a" ++ " assets \n"), Eff.netGet "u",
          Eff.mkdirParents "a", Eff.write "a"]) ∧
     download_assets_go envGood "a" (fsInsert [] "a" [1]) =
       Except.ok ("a", fsInsert [] "a" [1],
         [Eff.checkHash "a",
          Eff.print ("a" ++ " asset download complete. \n")]) ∧
     countEff isNetGet
       [Eff.checkHash "a",
        Eff.print ("a" ++ " asset download complete. \n")] = 0) :=
  ⟨⟨by decide, by decide, by decide, by decide⟩,
    C7_idempotent_cold envGood "a" [] "u" "h" [1]
      (by decide) (by decide) (by decide) (by decide)⟩

/-- C8: for a registered identifier with no local file whose transfer
succeeds, `download_assets` fetches the registered URL, creates the parent
directories, writes the received bytes at the identifier's path, and returns
that path; afterwards the file holds exactly the received bytes. -/
theorem C8_cold_fetch (env : Env) (f : String) (fs : FS) (u hsh : String)
    (bytes : List Nat)
    (h1 : fsLookup fs f = none)
    (h2 : ASSETS_lookup env f = some (u, hsh))
    (h3 : env.net u = some bytes) :
    download_assets_go env f fs =
      Except.ok (f, fsInsert fs f bytes,
        [Eff.print ("Downloading " ++ f ++ " assets \n"), Eff.netGet u,
         Eff.mkdirParents f, Eff.write f]) ∧
    fsLookup (fsInsert fs f bytes) f = some bytes := by
  constructor
  · rw [go_absent_registered env f fs u hsh h1 h2, h3]
  · exact fsLookup_fsInsert_self fs f bytes

/-- C8 (witness): the cold-fetch theorem applied to the faithful transport. -/
theorem C8_cold_fetch_witness :
    (fsLookup [] "a" = none ∧ ASSETS_lookup envGood "a" = some ("u", "h") ∧
     envGood.net "u" = some [1]) ∧
    (download_assets_go envGood "a" [] =
       Except.ok ("a", fsInsert [] "a" [1],
         [Eff.print ("Downloading " ++ "a" ++ " assets \n"), Eff.netGet "u",
          Eff.mkdirParents "a", Eff.write "a"]) ∧
     fsLookup (fsInsert [] "a" [1]) "a" = some [1]) :=
  ⟨⟨by decide, by decide, by decide⟩,
    C8_cold_fetch envGood "a" [] "u" "h" [1]
      (by decide) (by decide) (by decide)⟩

/-- C9: when no file exists at the path, `is_md5_hash_matching` returns
`False` for every expected hash, performing only the existence check and no
file read; being a total function of its inputs, it raises nothing. -/
theorem C9_missing_file_no_read (env : Env) (fs : FS) (f : String)
    (original_md5_hash : String) (h1 : fsLookup fs f = none) :
    is_md5_hash_matching env fs f original_md5_hash =
      (false, [ReadEff.existsCheck f]) := by
  simp [is_md5_hash_matching, h1]

/-- C9 (witness): the missing-file theorem applied to an empty filesystem. -/
theorem C9_missing_file_no_read_witness :
    fsLookup [] "a.mp4" = none ∧
    is_md5_hash_matching envC2 [] "a.mp4" "h" =
      (false, [ReadEff.existsCheck "a.mp4"]) :=
  ⟨by decide, C9_missing_file_no_read envC2 [] "a.mp4" "h" (by decide)⟩

/-- C10: calling `download_assets` with a typed asset enum value is the same
computation — same result, same final filesystem, same effect trace — as
calling it with the enum value's `filename` string. -/
theorem C10_enum_equiv (env : Env) (a : Assets) (fs : FS) :
    download_assets env (AssetName.enum a) fs =
      download_assets env (AssetName.str a.filename) fs := rfl

end Supervision
